import Mathlib

/-
Verification of lab4b.c: a periodic temperature sampler with a button
watcher and a command reader, sharing global control state and a
cooperative shutdown protocol.  The definitions below are a shallow
embedding of the C source; line numbers refer to src/lab4b.c.
-/

/-- The global mutable control state of lab4b.c: `user_int` (the shutdown
flag, line 29, initially 0, only ever set to 1), `gen_reports` (the
reporting flag, line 30, initially 1), `period` (line 36, a C int, default
1) and `scale` (line 37, a C char, default F). -/
structure CtrlState where
  user_int : Nat
  gen_reports : Nat
  period : Int
  scale : Char
deriving DecidableEq

/-- The POSIX signal number of SIGINT. -/
def SIGINT : Nat := 2

/-- `signal_handler` (lab4b.c lines 225-236): on SIGINT it stores 1 into
`user_int`; it ignores every other signal.  It does nothing else: no other
field is touched, no I/O. -/
def signal_handler (sig : Nat) (s : CtrlState) : CtrlState :=
  if sig = SIGINT then CtrlState.mk 1 s.gen_reports s.period s.scale else s

/-- C `strncmp(s1, s2, n)` on NUL-free byte strings; the end of each list
models the terminating NUL of the C string.  Comparison stops after `n`
bytes, at the first differing byte, or at a terminator. -/
def strncmp : List Char → List Char → Nat → Int
  | _, _, 0 => 0
  | [], [], _ + 1 => 0
  | [], b :: _, _ + 1 => 0 - (b.toNat : Int)
  | a :: _, [], _ + 1 => (a.toNat : Int)
  | a :: as, b :: bs, n + 1 =>
      if a = b then strncmp as bs n else (a.toNat : Int) - (b.toNat : Int)

/-- C `isspace` in the default locale (ASCII whitespace), as consulted by
`atoi`. -/
def c_isspace (c : Char) : Bool :=
  c == ' ' || c == '\t' || c == '\n' || c == '\x0b' || c == '\x0c' || c == '\r'

/-- The digit-accumulation loop of C `atoi`: consume leading decimal digits
into an accumulator, stop at the first non-digit. -/
def digits_val : List Char → Nat → Nat
  | c :: rest, acc =>
      if c.isDigit then digits_val rest (10 * acc + (c.toNat - 48)) else acc
  | [], acc => acc

/-- C `atoi`: skip leading whitespace, accept one optional sign, then read
leading decimal digits; everything after the digits is ignored and an
input with no digits yields 0. -/
def atoi (s : List Char) : Int :=
  match s.dropWhile c_isspace with
  | '-' :: rest => 0 - (digits_val rest 0 : Int)
  | '+' :: rest => (digits_val rest 0 : Int)
  | t => (digits_val t 0 : Int)

/-- The command literal `"OFF"` (lab4b.c line 287). -/
def OFF_cmd : List Char := ['O', 'F', 'F']

/-- The command literal `"STOP"` (lab4b.c line 290). -/
def STOP_cmd : List Char := ['S', 'T', 'O', 'P']

/-- The command literal `"START"` (lab4b.c line 292). -/
def START_cmd : List Char := ['S', 'T', 'A', 'R', 'T']

/-- The command literal `"SCALE=F"` (lab4b.c line 294). -/
def SCALEF_cmd : List Char := ['S', 'C', 'A', 'L', 'E', '=', 'F']

/-- The command literal `"SCALE=C"` (lab4b.c line 296). -/
def SCALEC_cmd : List Char := ['S', 'C', 'A', 'L', 'E', '=', 'C']

/-- The command literal `"PERIOD="` (lab4b.c line 298). -/
def PERIOD_cmd : List Char := ['P', 'E', 'R', 'I', 'O', 'D', '=']

/-- Result of one classification step of the command reader: the control
state afterwards, whether `raise(SIGINT)` was called, whether the reader
thread called `pthread_exit`, and how many `Bad command` diagnostics were
written to stderr. -/
structure ReadStep where
  state : CtrlState
  raised_sigint : Bool
  thread_exited : Bool
  bad_msgs : Nat
deriving DecidableEq

/-- The classification/application chain of `get_commands` (lab4b.c lines
287-302) applied to the chunk just read into `buff`.  `raise(SIGINT)` in
the OFF branch delivers the signal synchronously to this thread, so it is
modelled as running `signal_handler SIGINT` in place.  The `PERIOD=`
branch stores `atoi(&buff[7])` with no validation of the value. -/
def get_commands_step (buff : List Char) (s : CtrlState) : ReadStep :=
  if strncmp OFF_cmd buff 3 = 0 then
    ReadStep.mk (signal_handler SIGINT s) true true 0
  else if strncmp STOP_cmd buff 4 = 0 then
    ReadStep.mk (CtrlState.mk s.user_int 0 s.period s.scale) false false 0
  else if strncmp START_cmd buff 5 = 0 then
    ReadStep.mk (CtrlState.mk s.user_int 1 s.period s.scale) false false 0
  else if strncmp SCALEF_cmd buff 7 = 0 then
    ReadStep.mk (CtrlState.mk s.user_int s.gen_reports s.period 'F') false false 0
  else if strncmp SCALEC_cmd buff 7 = 0 then
    ReadStep.mk (CtrlState.mk s.user_int s.gen_reports s.period 'C') false false 0
  else if strncmp PERIOD_cmd buff 7 = 0 then
    ReadStep.mk (CtrlState.mk s.user_int s.gen_reports (atoi (buff.drop 7)) s.scale)
      false false 0
  else
    ReadStep.mk s false false 1

/-- `buff` begins with the bytes of the command literal `cmd`. -/
def matches_cmd (cmd buff : List Char) : Prop := ∃ rest, buff = cmd ++ rest

/-- `get_temperature` (lab4b.c lines 238-252), with the C floating-point
arithmetic idealized as real arithmetic: `B = 4275`,
`R = 1023.0 / adc_val - 1.0`,
`temp = 1.0 / (log(R)/B + 1.0/298.15) - 273.15`, and the Fahrenheit affine
conversion applied exactly when `units` is the character F. -/
noncomputable def get_temperature (adc_val : ℝ) (units : Char) : ℝ :=
  let B : ℝ := 4275
  let R : ℝ := 1023.0 / adc_val - 1.0
  let temp : ℝ := 1.0 / (Real.log R / B + 1.0 / 298.15) - 273.15
  if units = 'F' then temp * 9.0 / 5.0 + 32.0 else temp

/-- The reference conversion formula exactly as the specification words it:
with `B = 4275` and `fullscale = 1023`, `R = fullscale / v - 1`,
`T_celsius = 1 / (ln(R)/B + 1/298.15) - 273.15`, and if the unit is
Fahrenheit the result is `T_celsius * 9/5 + 32`. -/
noncomputable def spec_temperature (v : ℝ) (unit : Char) : ℝ :=
  let B : ℝ := 4275
  let fullscale : ℝ := 1023
  let R : ℝ := fullscale / v - 1
  let tC : ℝ := 1 / (Real.log R / B + 1 / 298.15) - 273.15
  if unit = 'F' then tC * 9 / 5 + 32 else tC

/-- Records emitted on stdout (and mirrored to the log) by the main
thread: a timestamped sample line, or the timestamped SHUTDOWN line. -/
inductive Record where
  | sample
  | shutdownMsg
deriving DecidableEq

/-- Events interleaved with the sampling loop: a sampler tick (one
iteration of the `while (!user_int)` loop at lines 157-191), the three
shutdown triggers (button press at line 320, OFF command at line 288,
external interrupt registered at line 77 — each raises SIGINT, running
`signal_handler`), and the STOP/START stores of the command reader (lines
291 and 293). -/
inductive Event where
  | tick
  | buttonPress
  | offCommand
  | ctrlC
  | stopCmd
  | startCmd
deriving DecidableEq

/-- The effect of each asynchronous event on the shared control state. -/
def apply_event : Event → CtrlState → CtrlState
  | Event.tick, s => s
  | Event.buttonPress, s => signal_handler SIGINT s
  | Event.offCommand, s => signal_handler SIGINT s
  | Event.ctrlC, s => signal_handler SIGINT s
  | Event.stopCmd, s => CtrlState.mk s.user_int 0 s.period s.scale
  | Event.startCmd, s => CtrlState.mk s.user_int 1 s.period s.scale

/-- The stream of records the sampling loop (lab4b.c lines 157-191) emits,
given an interleaving `es` of sampler ticks and concurrent events.  The
loop exits for good at the first tick that observes `user_int ≠ 0`; a tick
that observes `gen_reports = 0` emits nothing and keeps looping. -/
def sampler_trace : List Event → CtrlState → List Record
  | [], _ => []
  | Event.tick :: es, s =>
      if s.user_int ≠ 0 then []
      else if s.gen_reports ≠ 0 then Record.sample :: sampler_trace es s
      else sampler_trace es s
  | Event.buttonPress :: es, s => sampler_trace es (apply_event Event.buttonPress s)
  | Event.offCommand :: es, s => sampler_trace es (apply_event Event.offCommand s)
  | Event.ctrlC :: es, s => sampler_trace es (apply_event Event.ctrlC s)
  | Event.stopCmd :: es, s => sampler_trace es (apply_event Event.stopCmd s)
  | Event.startCmd :: es, s => sampler_trace es (apply_event Event.startCmd s)

/-- A whole process run of the main thread (lab4b.c lines 156-222): the
sampling loop runs to completion, and then the SHUTDOWN record is emitted
exactly once by straight-line code (lines 193-205) before the process
exits. -/
def process_run (es : List Event) (s : CtrlState) : List Record :=
  sampler_trace es s ++ [Record.shutdownMsg]

/-- The number of SHUTDOWN records in an output stream. -/
def count_shutdown : List Record → Nat
  | [] => 0
  | Record.shutdownMsg :: rest => 1 + count_shutdown rest
  | Record.sample :: rest => count_shutdown rest

/-- What one execution of the sampling-loop body (lab4b.c lines 157-191)
does: whether a sample record was emitted, whether `sleep` was called, and
with what argument.  In the source, the `sleep(period)` call sits inside
the `if (gen_reports)` block, so a disabled tick neither emits nor
sleeps. -/
structure SamplerTick where
  emitted : Bool
  slept : Bool
  sleep_for : Int
deriving DecidableEq

/-- One iteration of the sampling loop body, as a function of the control
state it observes. -/
def sampler_iteration (s : CtrlState) : SamplerTick :=
  if s.gen_reports ≠ 0 then SamplerTick.mk true true s.period
  else SamplerTick.mk false false 0

/-- What a code path does next: keep running, or terminate the whole
process with the given exit status (`diagnostic` records whether a
`perror` message went to stderr first). -/
inductive Outcome where
  | proceed
  | exitWith (status : Nat) (diagnostic : Bool)
deriving DecidableEq

/-- The sampler's log append (lab4b.c lines 175-180): a `write` returning
a negative value is answered by `perror` and `exit(1)`. -/
def log_sample_write (writeResult : Int) : Outcome :=
  if writeResult < 0 then Outcome.exitWith 1 true else Outcome.proceed

/-- The shutdown record's log append (lab4b.c lines 200-205): same fatal
policy. -/
def log_shutdown_write (writeResult : Int) : Outcome :=
  if writeResult < 0 then Outcome.exitWith 1 true else Outcome.proceed

/-- The command reader's mirror of the raw input bytes to the log
(lab4b.c lines 281-286): same fatal policy. -/
def log_command_mirror (writeResult : Int) : Outcome :=
  if writeResult < 0 then Outcome.exitWith 1 true else Outcome.proceed

/-- A default control state (the program's initial configuration: not
interrupted, reporting on, period 1, Fahrenheit). -/
def init_state : CtrlState := CtrlState.mk 0 1 1 'F'

/- ## Helper lemmas -/

theorem char_toNat_inj (a b : Char) (h : a.toNat = b.toNat) : a = b :=
  Char.ext (UInt32.ext h)

theorem strncmp_self_eq_zero_iff (cmd buff : List Char)
    (hc : ∀ c ∈ cmd, c.toNat ≠ 0) :
    strncmp cmd buff cmd.length = 0 ↔ matches_cmd cmd buff := by
  induction cmd generalizing buff with
  | nil =>
    simp [strncmp, matches_cmd]
  | cons a as ih =>
    cases buff with
    | nil =>
      simp only [List.length_cons, strncmp, matches_cmd]
      constructor
      · intro h
        have h0 : a.toNat ≠ 0 := hc a (List.mem_cons_self a as)
        omega
      · rintro ⟨rest, h⟩
        simp at h
    | cons b bs =>
      simp only [List.length_cons, strncmp, matches_cmd]
      by_cases hab : a = b
      · subst hab
        rw [if_pos rfl]
        have hrec := ih bs (fun c hcmem => hc c (List.mem_cons_of_mem a hcmem))
        rw [matches_cmd] at hrec
        rw [hrec]
        constructor
        · rintro ⟨rest, h⟩
          exact ⟨rest, by rw [h]; rfl⟩
        · rintro ⟨rest, h⟩
          rw [List.cons_append] at h
          injection h with h1 h2
          exact ⟨rest, h2⟩
      · rw [if_neg hab]
        constructor
        · intro h
          exfalso
          exact hab (char_toNat_inj a b (by omega))
        · rintro ⟨rest, h⟩
          rw [List.cons_append] at h
          injection h with h1 h2
          exact absurd h1.symm hab

theorem off_match (buff : List Char) :
    strncmp OFF_cmd buff 3 = 0 ↔ matches_cmd OFF_cmd buff :=
  strncmp_self_eq_zero_iff OFF_cmd buff (by decide)

theorem stop_match (buff : List Char) :
    strncmp STOP_cmd buff 4 = 0 ↔ matches_cmd STOP_cmd buff :=
  strncmp_self_eq_zero_iff STOP_cmd buff (by decide)

theorem start_match (buff : List Char) :
    strncmp START_cmd buff 5 = 0 ↔ matches_cmd START_cmd buff :=
  strncmp_self_eq_zero_iff START_cmd buff (by decide)

theorem scaleF_match (buff : List Char) :
    strncmp SCALEF_cmd buff 7 = 0 ↔ matches_cmd SCALEF_cmd buff :=
  strncmp_self_eq_zero_iff SCALEF_cmd buff (by decide)

theorem scaleC_match (buff : List Char) :
    strncmp SCALEC_cmd buff 7 = 0 ↔ matches_cmd SCALEC_cmd buff :=
  strncmp_self_eq_zero_iff SCALEC_cmd buff (by decide)

theorem period_match (buff : List Char) :
    strncmp PERIOD_cmd buff 7 = 0 ↔ matches_cmd PERIOD_cmd buff :=
  strncmp_self_eq_zero_iff PERIOD_cmd buff (by decide)

theorem get_commands_step_off (buff : List Char) (s : CtrlState)
    (h : matches_cmd OFF_cmd buff) :
    get_commands_step buff s = ReadStep.mk (signal_handler SIGINT s) true true 0 := by
  obtain ⟨rest, rfl⟩ := h
  simp [get_commands_step, OFF_cmd, strncmp]

theorem get_commands_step_stop (buff : List Char) (s : CtrlState)
    (h : matches_cmd STOP_cmd buff) :
    get_commands_step buff s
      = ReadStep.mk (CtrlState.mk s.user_int 0 s.period s.scale) false false 0 := by
  obtain ⟨rest, rfl⟩ := h
  simp [get_commands_step, OFF_cmd, STOP_cmd, strncmp]

theorem get_commands_step_start (buff : List Char) (s : CtrlState)
    (h : matches_cmd START_cmd buff) :
    get_commands_step buff s
      = ReadStep.mk (CtrlState.mk s.user_int 1 s.period s.scale) false false 0 := by
  obtain ⟨rest, rfl⟩ := h
  simp [get_commands_step, OFF_cmd, STOP_cmd, START_cmd, strncmp]

theorem get_commands_step_scaleF (buff : List Char) (s : CtrlState)
    (h : matches_cmd SCALEF_cmd buff) :
    get_commands_step buff s
      = ReadStep.mk (CtrlState.mk s.user_int s.gen_reports s.period 'F') false false 0 := by
  obtain ⟨rest, rfl⟩ := h
  simp [get_commands_step, OFF_cmd, STOP_cmd, START_cmd, SCALEF_cmd, strncmp]

theorem get_commands_step_scaleC (buff : List Char) (s : CtrlState)
    (h : matches_cmd SCALEC_cmd buff) :
    get_commands_step buff s
      = ReadStep.mk (CtrlState.mk s.user_int s.gen_reports s.period 'C') false false 0 := by
  obtain ⟨rest, rfl⟩ := h
  simp [get_commands_step, OFF_cmd, STOP_cmd, START_cmd, SCALEF_cmd, SCALEC_cmd, strncmp]

theorem get_commands_step_period (rest : List Char) (s : CtrlState) :
    get_commands_step (PERIOD_cmd ++ rest) s
      = ReadStep.mk (CtrlState.mk s.user_int s.gen_reports (atoi rest) s.scale)
          false false 0 := by
  simp [get_commands_step, OFF_cmd, STOP_cmd, START_cmd, SCALEF_cmd, SCALEC_cmd,
    PERIOD_cmd, strncmp]

theorem get_commands_step_nomatch (buff : List Char) (s : CtrlState)
    (h1 : ¬ matches_cmd OFF_cmd buff) (h2 : ¬ matches_cmd STOP_cmd buff)
    (h3 : ¬ matches_cmd START_cmd buff) (h4 : ¬ matches_cmd SCALEF_cmd buff)
    (h5 : ¬ matches_cmd SCALEC_cmd buff) (h6 : ¬ matches_cmd PERIOD_cmd buff) :
    get_commands_step buff s = ReadStep.mk s false false 1 := by
  unfold get_commands_step
  rw [if_neg (fun hc => h1 ((off_match buff).mp hc)),
    if_neg (fun hc => h2 ((stop_match buff).mp hc)),
    if_neg (fun hc => h3 ((start_match buff).mp hc)),
    if_neg (fun hc => h4 ((scaleF_match buff).mp hc)),
    if_neg (fun hc => h5 ((scaleC_match buff).mp hc)),
    if_neg (fun hc => h6 ((period_match buff).mp hc))]

theorem signal_handler_idem (s : CtrlState) :
    signal_handler SIGINT (signal_handler SIGINT s) = signal_handler SIGINT s := by
  simp [signal_handler]

theorem count_shutdown_append (l1 l2 : List Record) :
    count_shutdown (l1 ++ l2) = count_shutdown l1 + count_shutdown l2 := by
  induction l1 with
  | nil => simp [count_shutdown]
  | cons r rest ih => cases r <;> simp [count_shutdown, ih, Nat.add_assoc]

theorem sampler_trace_no_shutdown (es : List Event) (s : CtrlState) :
    count_shutdown (sampler_trace es s) = 0 := by
  induction es generalizing s with
  | nil => rfl
  | cons e es ih =>
    cases e
    case tick =>
      simp only [sampler_trace]
      split_ifs <;> simp [count_shutdown, ih]
    all_goals simp [sampler_trace, ih]

/- ## Claim theorems -/

/-- Claim C1: the Shutdown Record is emitted exactly once per process run,
after the sampling loop has exited and before process exit, for every
interleaving of sampler ticks and shutdown triggers — including runs in
which two triggers (e.g. a button press and an OFF command) occur
near-simultaneously. -/
theorem C1_shutdown_record_exactly_once (es : List Event) (s : CtrlState) :
    count_shutdown (process_run es s) = 1
    ∧ (process_run es s).getLast? = some Record.shutdownMsg := by
  constructor
  · rw [process_run, count_shutdown_append, sampler_trace_no_shutdown]
    rfl
  · exact List.getLast?_concat _

/-- Claim C2: the shutdown flag has write-once semantics.  `signal_handler`
on SIGINT sets `user_int` to 1; once 1 it never reverts under any further
signal; the handler only ever leaves the flag alone or sets it to 1; and
invoking it `n + 1` times equals invoking it once. -/
theorem C2_shutdown_flag_write_once (s : CtrlState) (sig n : Nat) :
    (signal_handler SIGINT s).user_int = 1
    ∧ (signal_handler sig (CtrlState.mk 1 s.gen_reports s.period s.scale)).user_int = 1
    ∧ ((signal_handler sig s).user_int = s.user_int ∨ (signal_handler sig s).user_int = 1)
    ∧ (signal_handler SIGINT)^[n + 1] s = signal_handler SIGINT s := by
  refine ⟨by simp [signal_handler], ?_, ?_, ?_⟩
  · unfold signal_handler
    split_ifs <;> rfl
  · unfold signal_handler
    split_ifs <;> simp
  · induction n with
    | zero => rfl
    | succ m ih =>
      rw [Function.iterate_succ_apply', ih, signal_handler_idem]

/-- Claim C3 counterexample: on a sampler tick where reporting is disabled
(state `⟨0, 0, 5, F⟩` after a STOP), the loop body does skip emission, but
it does not sleep at all — `sleep(period)` sits inside the
`if (gen_reports)` block — refuting the claim that the sampler still
sleeps the full configured period on such a tick. -/
theorem C3_counterexample :
    ¬ ((sampler_iteration (CtrlState.mk 0 0 5 'F')).emitted = false
       ∧ (sampler_iteration (CtrlState.mk 0 0 5 'F')).slept = true
       ∧ (sampler_iteration (CtrlState.mk 0 0 5 'F')).sleep_for = 5) := by
  decide

/-- Claim C3 (amended): on a sampler tick where reporting is disabled, the
sampler skips the emission AND the sleep for that iteration (the loop
busy-polls the flags), and the loop itself keeps running, so a later START
resumes emission on the following tick. -/
theorem C3_stop_tick_skips_sleep (s : CtrlState) (es : List Event)
    (h1 : s.user_int = 0) (h2 : s.gen_reports = 0) :
    sampler_iteration s = SamplerTick.mk false false 0
    ∧ sampler_trace (Event.tick :: es) s = sampler_trace es s
    ∧ sampler_trace (Event.tick :: Event.startCmd :: Event.tick :: es) s
        = Record.sample :: sampler_trace es (CtrlState.mk s.user_int 1 s.period s.scale) := by
  refine ⟨?_, ?_, ?_⟩
  · simp [sampler_iteration, h2]
  · simp [sampler_trace, h1, h2]
  · simp [sampler_trace, apply_event, h1, h2]

/-- Claim C3 witness: concrete run in the stopped state `⟨0, 0, 1, F⟩`; the
trace of a disabled tick, a START, and one more tick is a single sample. -/
theorem C3_stop_tick_witness :
    (CtrlState.mk 0 0 1 'F').user_int = 0
    ∧ (CtrlState.mk 0 0 1 'F').gen_reports = 0
    ∧ sampler_trace [Event.tick, Event.startCmd, Event.tick] (CtrlState.mk 0 0 1 'F')
        = [Record.sample] := by
  refine ⟨rfl, rfl, ?_⟩
  have h := C3_stop_tick_skips_sleep (CtrlState.mk 0 0 1 'F') [] rfl rfl
  rw [h.2.2]
  rfl

/-- Claim C4: the command reader classifies each input chunk by exact
case-sensitive prefix match against OFF, STOP, START, SCALE=F, SCALE=C and
PERIOD=, and applies the matching effect: OFF requests shutdown (the flag
becomes 1) and exits the reader loop; STOP clears `gen_reports`; START
sets it; SCALE=F/SCALE=C store the scale; PERIOD= stores `atoi` of the
trailing bytes as the period with no validation. -/
theorem C4_command_dispatch (buff rest : List Char) (s : CtrlState) :
    (matches_cmd OFF_cmd buff →
      get_commands_step buff s = ReadStep.mk (signal_handler SIGINT s) true true 0
      ∧ (get_commands_step buff s).state.user_int = 1
      ∧ (get_commands_step buff s).thread_exited = true)
    ∧ (matches_cmd STOP_cmd buff →
      get_commands_step buff s
        = ReadStep.mk (CtrlState.mk s.user_int 0 s.period s.scale) false false 0)
    ∧ (matches_cmd START_cmd buff →
      get_commands_step buff s
        = ReadStep.mk (CtrlState.mk s.user_int 1 s.period s.scale) false false 0)
    ∧ (matches_cmd SCALEF_cmd buff →
      get_commands_step buff s
        = ReadStep.mk (CtrlState.mk s.user_int s.gen_reports s.period 'F') false false 0)
    ∧ (matches_cmd SCALEC_cmd buff →
      get_commands_step buff s
        = ReadStep.mk (CtrlState.mk s.user_int s.gen_reports s.period 'C') false false 0)
    ∧ get_commands_step (PERIOD_cmd ++ rest) s
        = ReadStep.mk (CtrlState.mk s.user_int s.gen_reports (atoi rest) s.scale)
            false false 0 := by
  refine ⟨fun h => ?_, get_commands_step_stop buff s, get_commands_step_start buff s,
    get_commands_step_scaleF buff s, get_commands_step_scaleC buff s,
    get_commands_step_period rest s⟩
  have he := get_commands_step_off buff s h
  refine ⟨he, ?_, ?_⟩ <;> simp [he, signal_handler]

/-- Claim C4 witness: a STOP chunk clears the reporting flag, and a
`PERIOD=-7` chunk stores the non-positive period -7 unvalidated. -/
theorem C4_command_dispatch_witness :
    get_commands_step (STOP_cmd ++ ['\n']) init_state
      = ReadStep.mk (CtrlState.mk 0 0 1 'F') false false 0
    ∧ get_commands_step (PERIOD_cmd ++ ['-', '7']) init_state
      = ReadStep.mk (CtrlState.mk 0 1 (-7) 'F') false false 0 := by
  constructor
  · have h := (C4_command_dispatch (STOP_cmd ++ ['\n']) [] init_state).2.1 ⟨['\n'], rfl⟩
    rw [h]
    decide
  · have h := (C4_command_dispatch (PERIOD_cmd ++ ['-', '7']) ['-', '7'] init_state).2.2.2.2.2
    rw [h]
    decide

/-- Claim C5: for every raw reading in the sensor's range and every unit
selector, `get_temperature` equals the reference formula of the
specification (B = 4275, fullscale = 1023, R = fullscale/v - 1,
T_celsius = 1/(ln(R)/B + 1/298.15) - 273.15, Fahrenheit affine step when
the unit is F). -/
theorem C5_temperature_formula (v : ℝ) (unit : Char)
    (_h1 : 0 < v) (_h2 : v ≤ 1023) :
    get_temperature v unit = spec_temperature v unit := by
  simp only [get_temperature, spec_temperature]
  split_ifs <;> norm_num

/-- Claim C5 witness: at the mid-scale reading 512 in Celsius, the code's
conversion and the reference formula agree. -/
theorem C5_temperature_formula_witness :
    (0 : ℝ) < 512 ∧ (512 : ℝ) ≤ 1023
    ∧ get_temperature 512 'C' = spec_temperature 512 'C' :=
  ⟨by norm_num, by norm_num,
    C5_temperature_formula 512 'C' (by norm_num) (by norm_num)⟩

/-- Claim C6: for every raw reading v > 0, the Fahrenheit result is the
Celsius result scaled by 9/5 and shifted by 32 (exactly, in the idealized
real-number model). -/
theorem C6_fahrenheit_affine (v : ℝ) (_h : 0 < v) :
    get_temperature v 'F' = get_temperature v 'C' * 9 / 5 + 32 := by
  have hc : (('C' : Char) = 'F') = False := by simp
  simp only [get_temperature, hc, if_false, if_pos rfl, if_true]
  norm_num

/-- Claim C6 witness: the affine relation instantiated at the reading
512. -/
theorem C6_fahrenheit_affine_witness :
    (0 : ℝ) < 512
    ∧ get_temperature 512 'F' = get_temperature 512 'C' * 9 / 5 + 32 :=
  ⟨by norm_num, C6_fahrenheit_affine 512 (by norm_num)⟩

/-- Claim C7: an input chunk matching none of the six command literals
leaves every field of the control state unchanged (period, scale,
reporting flag and shutdown flag included), produces exactly one
diagnostic on stderr, and neither raises SIGINT nor exits the reader
thread, so the process keeps running. -/
theorem C7_unrecognized_command (buff : List Char) (s : CtrlState)
    (h1 : ¬ matches_cmd OFF_cmd buff) (h2 : ¬ matches_cmd STOP_cmd buff)
    (h3 : ¬ matches_cmd START_cmd buff) (h4 : ¬ matches_cmd SCALEF_cmd buff)
    (h5 : ¬ matches_cmd SCALEC_cmd buff) (h6 : ¬ matches_cmd PERIOD_cmd buff) :
    get_commands_step buff s = ReadStep.mk s false false 1 :=
  get_commands_step_nomatch buff s h1 h2 h3 h4 h5 h6

/-- Claim C7 witness: the chunk BOGUS matches no command literal, and in
the initial state it yields exactly one diagnostic and no change. -/
theorem C7_unrecognized_command_witness :
    get_commands_step ['B', 'O', 'G', 'U', 'S'] init_state
      = ReadStep.mk init_state false false 1 := by
  have hoff : ¬ matches_cmd OFF_cmd ['B', 'O', 'G', 'U', 'S'] := by
    rintro ⟨r, h⟩
    simp [OFF_cmd] at h
  have hstop : ¬ matches_cmd STOP_cmd ['B', 'O', 'G', 'U', 'S'] := by
    rintro ⟨r, h⟩
    simp [STOP_cmd] at h
  have hstart : ¬ matches_cmd START_cmd ['B', 'O', 'G', 'U', 'S'] := by
    rintro ⟨r, h⟩
    simp [START_cmd] at h
  have hsf : ¬ matches_cmd SCALEF_cmd ['B', 'O', 'G', 'U', 'S'] := by
    rintro ⟨r, h⟩
    simp [SCALEF_cmd] at h
  have hsc : ¬ matches_cmd SCALEC_cmd ['B', 'O', 'G', 'U', 'S'] := by
    rintro ⟨r, h⟩
    simp [SCALEC_cmd] at h
  have hper : ¬ matches_cmd PERIOD_cmd ['B', 'O', 'G', 'U', 'S'] := by
    rintro ⟨r, h⟩
    simp [PERIOD_cmd] at h
  exact C7_unrecognized_command ['B', 'O', 'G', 'U', 'S'] init_state
    hoff hstop hstart hsf hsc hper

/-- Claim C8: at each of the three log-write sites (the sampler's record
append, the shutdown record append, and the command reader's mirror of the
raw input), a failed `write` (negative return) terminates the whole
process at once with a stderr diagnostic and exit status 1 — it never
proceeds, so the failure is neither retried nor confined to one
activity. -/
theorem C8_log_write_fatal (r : Int) (h : r < 0) :
    log_sample_write r = Outcome.exitWith 1 true
    ∧ log_shutdown_write r = Outcome.exitWith 1 true
    ∧ log_command_mirror r = Outcome.exitWith 1 true
    ∧ log_sample_write r ≠ Outcome.proceed := by
  refine ⟨?_, ?_, ?_, ?_⟩ <;>
    simp [log_sample_write, log_shutdown_write, log_command_mirror, h]

/-- Claim C8 witness: a write returning -1 is fatal at all three sites. -/
theorem C8_log_write_fatal_witness :
    (-1 : Int) < 0 ∧ log_sample_write (-1) = Outcome.exitWith 1 true :=
  ⟨by decide, (C8_log_write_fatal (-1) (by decide)).1⟩

/-- Claim C9: for every raw reading and every unit character other than F
(K, lowercase f, or any other byte), `get_temperature` returns the Celsius
value: the unit argument only decides whether the Fahrenheit affine step
is applied, and an unrecognized unit silently defaults to Celsius. -/
theorem C9_default_celsius (v : ℝ) (unit : Char) (h : unit ≠ 'F') :
    get_temperature v unit = get_temperature v 'C' := by
  have hc : (('C' : Char) = 'F') = False := by simp
  simp only [get_temperature, hc, if_false, if_neg h]

/-- Claim C9 witness: the unrecognized unit K at reading 512 yields the
Celsius value. -/
theorem C9_default_celsius_witness :
    ('K' : Char) ≠ 'F' ∧ get_temperature 512 'K' = get_temperature 512 'C' :=
  ⟨by decide, C9_default_celsius 512 'K' (by decide)⟩

/-- Claim C10: every recognized command other than OFF writes exactly one
field of the control state and leaves the others unchanged — STOP and
START write only `gen_reports`, SCALE=F and SCALE=C write only `scale`,
PERIOD= writes only `period` — and none of them touches the shutdown flag
`user_int`. -/
theorem C10_command_frame (buff : List Char) (s : CtrlState) :
    (matches_cmd STOP_cmd buff →
      (get_commands_step buff s).state.gen_reports = 0
      ∧ (get_commands_step buff s).state.period = s.period
      ∧ (get_commands_step buff s).state.scale = s.scale
      ∧ (get_commands_step buff s).state.user_int = s.user_int)
    ∧ (matches_cmd START_cmd buff →
      (get_commands_step buff s).state.gen_reports = 1
      ∧ (get_commands_step buff s).state.period = s.period
      ∧ (get_commands_step buff s).state.scale = s.scale
      ∧ (get_commands_step buff s).state.user_int = s.user_int)
    ∧ (matches_cmd SCALEF_cmd buff →
      (get_commands_step buff s).state.scale = 'F'
      ∧ (get_commands_step buff s).state.period = s.period
      ∧ (get_commands_step buff s).state.gen_reports = s.gen_reports
      ∧ (get_commands_step buff s).state.user_int = s.user_int)
    ∧ (matches_cmd SCALEC_cmd buff →
      (get_commands_step buff s).state.scale = 'C'
      ∧ (get_commands_step buff s).state.period = s.period
      ∧ (get_commands_step buff s).state.gen_reports = s.gen_reports
      ∧ (get_commands_step buff s).state.user_int = s.user_int)
    ∧ (matches_cmd PERIOD_cmd buff →
      (get_commands_step buff s).state.period = atoi (buff.drop 7)
      ∧ (get_commands_step buff s).state.scale = s.scale
      ∧ (get_commands_step buff s).state.gen_reports = s.gen_reports
      ∧ (get_commands_step buff s).state.user_int = s.user_int) := by
  refine ⟨fun h => ?_, fun h => ?_, fun h => ?_, fun h => ?_, fun h => ?_⟩
  · rw [get_commands_step_stop buff s h]
    exact ⟨rfl, rfl, rfl, rfl⟩
  · rw [get_commands_step_start buff s h]
    exact ⟨rfl, rfl, rfl, rfl⟩
  · rw [get_commands_step_scaleF buff s h]
    exact ⟨rfl, rfl, rfl, rfl⟩
  · rw [get_commands_step_scaleC buff s h]
    exact ⟨rfl, rfl, rfl, rfl⟩
  · obtain ⟨rest, rfl⟩ := h
    rw [get_commands_step_period rest s]
    refine ⟨?_, rfl, rfl, rfl⟩
    simp [PERIOD_cmd]

/-- Claim C10 witness: SCALE=C in the initial state writes the scale and
leaves period, reporting flag and shutdown flag untouched. -/
theorem C10_command_frame_witness :
    matches_cmd SCALEC_cmd SCALEC_cmd
    ∧ (get_commands_step SCALEC_cmd init_state).state.scale = 'C'
    ∧ (get_commands_step SCALEC_cmd init_state).state.user_int = 0 := by
  have hm : matches_cmd SCALEC_cmd SCALEC_cmd := ⟨[], by simp⟩
  have h := (C10_command_frame SCALEC_cmd init_state).2.2.2.1 hm
  refine ⟨hm, h.1, ?_⟩
  rw [h.2.2.2]
  rfl
